import Mathlib

set_option maxRecDepth 100000

/-!
Shallow embedding of the LS-8 virtual CPU (ls8/cpu.py) and its loader.

Python lists are modelled as Lean lists of unbounded integers (Python ints
are unbounded); Python list indexing, which accepts negative indices that
count from the end of the list and raises IndexError otherwise, is modelled
by the partial functions pyGet / pySet below.  Every instruction handler is
translated statement by statement from the source; exceptions (IndexError,
TypeError, SystemExit raised by sys.exit, and the bare Exception raised by
the ALU) are modelled by an explicit result type that also records the
state of the CPU object at the moment the exception escapes.
-/

namespace LS8

/-- Resolution of a Python list index: a nonnegative index must be below the
length, a negative index counts from the end of the list; any other index
raises IndexError, modelled as none. -/
def pyIdx (len : Nat) (i : Int) : Option Nat :=
  if 0 ≤ i then
    if i < (len : Int) then some i.toNat else none
  else
    if 0 ≤ i + (len : Int) then some (i + (len : Int)).toNat else none

/-- Python list read xs[i], with negative-index wraparound and IndexError
as none. -/
def pyGet (xs : List Int) (i : Int) : Option Int :=
  match pyIdx xs.length i with
  | some n => xs[n]?
  | none => none

/-- Python list assignment xs[i] = v, with negative-index wraparound and
IndexError as none. -/
def pySet (xs : List Int) (i : Int) (v : Int) : Option (List Int) :=
  match pyIdx xs.length i with
  | some n => some (xs.set n v)
  | none => none

/-- Opcode constants from the top of cpu.py. -/
def HLT : Int := 0b00000001

def LDI : Int := 0b10000010

def PRN : Int := 0b01000111

def MULT : Int := 0b10100010

def PUSH : Int := 0b01000101

def POP : Int := 0b01000110

def CALL : Int := 0b01010000

def RET : Int := 0b00010001

def ADD : Int := 0b10100000

def CMP : Int := 0b10100111

def JMP : Int := 0b01010100

def JEQ : Int := 0b01010101

def JNE : Int := 0b01010110

def AND : Int := 0b10101000

def OR : Int := 0b10101010

def XOR : Int := 0b10101011

def NOT : Int := 0b01101001

/-- The mutable attributes of the CPU object: 256-cell ram, 8-cell register
file, running flag, program counter and the three comparison flags, plus
the text printed so far (one list entry per print call). -/
structure CPUState where
  ram : List Int
  reg : List Int
  running : Bool
  pc : Int
  e : Int
  l : Int
  g : Int
  output : List String
deriving Repr, DecidableEq

/-- Exceptions that can escape an instruction handler. -/
inductive PyErr where
  | indexError : PyErr
  | typeError : PyErr
  | systemExit : Int → PyErr
  | exception : String → PyErr
deriving Repr, DecidableEq

/-- Result of running a handler (or the run loop): normal return with the
new state, or an exception together with the state of the CPU object at the
moment the exception escapes. -/
inductive Res where
  | ok : CPUState → Res
  | exn : PyErr → CPUState → Res
deriving Repr, DecidableEq

/-- State carried by a result, whether or not an exception was raised. -/
def Res.state : Res → CPUState
  | .ok s => s
  | .exn _ s => s

/-- The CPU constructor: ram and registers zeroed, reg[7] (the stack
pointer) set to 0xF4, pc and flags zero, not running. -/
def initState : CPUState :=
  { ram := List.replicate 256 0
    reg := (List.replicate 8 0).set 7 0xF4
    running := false
    pc := 0
    e := 0
    l := 0
    g := 0
    output := [] }

/-- CPU.alu: the if/elif chain on the op string.  reg_b is Optional because
the NOT handler passes Python None for it; the binary branches would raise
TypeError on None (they never do in the program, every binary call site
passes a register index). -/
def alu (s : CPUState) (op : String) (reg_a : Int) (reg_b : Option Int) : Res :=
  if op = "ADD" then
    match reg_b with
    | none => .exn .typeError s
    | some rb =>
      match pyGet s.reg reg_a, pyGet s.reg rb with
      | some va, some vb =>
        match pySet s.reg reg_a (va + vb) with
        | some reg1 => .ok { s with reg := reg1 }
        | none => .exn .indexError s
      | _, _ => .exn .indexError s
  else if op = "MULT" then
    match reg_b with
    | none => .exn .typeError s
    | some rb =>
      match pyGet s.reg reg_a, pyGet s.reg rb with
      | some va, some vb =>
        match pySet s.reg reg_a (va * vb) with
        | some reg1 => .ok { s with reg := reg1 }
        | none => .exn .indexError s
      | _, _ => .exn .indexError s
  else if op = "CMP" then
    match reg_b with
    | none => .exn .typeError s
    | some rb =>
      match pyGet s.reg reg_a, pyGet s.reg rb with
      | some va, some vb =>
        .ok { s with e := if va = vb then 1 else 0
                     l := if va < vb then 1 else 0
                     g := if vb < va then 1 else 0 }
      | _, _ => .exn .indexError s
  else if op = "AND" then
    match reg_b with
    | none => .exn .typeError s
    | some rb =>
      match pyGet s.reg reg_a, pyGet s.reg rb with
      | some va, some vb =>
        match pySet s.reg reg_a (Int.land va vb) with
        | some reg1 => .ok { s with reg := reg1 }
        | none => .exn .indexError s
      | _, _ => .exn .indexError s
  else if op = "OR" then
    match reg_b with
    | none => .exn .typeError s
    | some rb =>
      match pyGet s.reg reg_a, pyGet s.reg rb with
      | some va, some vb =>
        match pySet s.reg reg_a (Int.lor va vb) with
        | some reg1 => .ok { s with reg := reg1 }
        | none => .exn .indexError s
      | _, _ => .exn .indexError s
  else if op = "XOR" then
    match reg_b with
    | none => .exn .typeError s
    | some rb =>
      match pyGet s.reg reg_a, pyGet s.reg rb with
      | some va, some vb =>
        match pySet s.reg reg_a (Int.xor va vb) with
        | some reg1 => .ok { s with reg := reg1 }
        | none => .exn .indexError s
      | _, _ => .exn .indexError s
  else if op = "NOT" then
    match pyGet s.reg reg_a with
    | some va =>
      match pySet s.reg reg_a (Int.lnot va) with
      | some reg1 => .ok { s with reg := reg1 }
      | none => .exn .indexError s
    | none => .exn .indexError s
  else .exn (.exception "Unsupported ALU operation") s

/-- CPU.ram_read: despite its name it prints the value of the REGISTER at
the given index (print goes to the output list). -/
def ram_read (s : CPUState) (MAR : Int) : Res :=
  match pyGet s.reg MAR with
  | some v => .ok { s with output := s.output ++ [toString v] }
  | none => .exn .indexError s

/-- CPU.ram_write: despite its name it writes the REGISTER at the given
index. -/
def ram_write (s : CPUState) (MDR : Int) (MAR : Int) : Res :=
  match pySet s.reg MAR MDR with
  | some reg1 => .ok { s with reg := reg1 }
  | none => .exn .indexError s

/-- CPU.hlt: clears the running flag and then calls sys.exit(1), which
raises SystemExit with exit status 1. -/
def hlt (s : CPUState) : Res :=
  .exn (.systemExit 1) { s with running := false }

/-- CPU.ldi: reg_num and value from the two operand bytes, then
ram_write(value, reg_num) and pc += 3. -/
def ldi (s : CPUState) : Res :=
  match pyGet s.ram (s.pc + 1) with
  | none => .exn .indexError s
  | some reg_num =>
    match pyGet s.ram (s.pc + 2) with
    | none => .exn .indexError s
    | some value =>
      match ram_write s value reg_num with
      | .ok s1 => .ok { s1 with pc := s1.pc + 3 }
      | r => r

/-- CPU.prn: ram_read on the operand register index, then pc += 2. -/
def prn (s : CPUState) : Res :=
  match pyGet s.ram (s.pc + 1) with
  | none => .exn .indexError s
  | some reg_num =>
    match ram_read s reg_num with
    | .ok s1 => .ok { s1 with pc := s1.pc + 2 }
    | r => r

/-- CPU.add. -/
def add (s : CPUState) : Res :=
  match pyGet s.ram (s.pc + 1) with
  | none => .exn .indexError s
  | some a =>
    match pyGet s.ram (s.pc + 2) with
    | none => .exn .indexError s
    | some b =>
      match alu s "ADD" a (some b) with
      | .ok s1 => .ok { s1 with pc := s1.pc + 3 }
      | r => r

/-- CPU.mult. -/
def mult (s : CPUState) : Res :=
  match pyGet s.ram (s.pc + 1) with
  | none => .exn .indexError s
  | some a =>
    match pyGet s.ram (s.pc + 2) with
    | none => .exn .indexError s
    | some b =>
      match alu s "MULT" a (some b) with
      | .ok s1 => .ok { s1 with pc := s1.pc + 3 }
      | r => r

/-- CPU.push: decrement reg[7], read the operand register index, read its
value, store the value at ram[reg[7]] and advance pc by 2. -/
def push (s : CPUState) : Res :=
  match pyGet s.reg 7 with
  | none => .exn .indexError s
  | some spv =>
    match pySet s.reg 7 (spv - 1) with
    | none => .exn .indexError s
    | some reg1 =>
      let s1 : CPUState := { s with reg := reg1 }
      match pyGet s1.ram (s1.pc + 1) with
      | none => .exn .indexError s1
      | some reg_num =>
        match pyGet s1.reg reg_num with
        | none => .exn .indexError s1
        | some value =>
          match pyGet s1.reg 7 with
          | none => .exn .indexError s1
          | some top =>
            match pySet s1.ram top value with
            | none => .exn .indexError s1
            | some ram1 => .ok { s1 with ram := ram1, pc := s1.pc + 2 }

/-- CPU.pop: read ram[reg[7]], store it into the operand register,
increment reg[7] and advance pc by 2. -/
def pop (s : CPUState) : Res :=
  match pyGet s.reg 7 with
  | none => .exn .indexError s
  | some top =>
    match pyGet s.ram top with
    | none => .exn .indexError s
    | some value =>
      match pyGet s.ram (s.pc + 1) with
      | none => .exn .indexError s
      | some reg_num =>
        match pySet s.reg reg_num value with
        | none => .exn .indexError s
        | some reg1 =>
          let s1 : CPUState := { s with reg := reg1 }
          match pyGet s1.reg 7 with
          | none => .exn .indexError s1
          | some spv =>
            match pySet s1.reg 7 (spv + 1) with
            | none => .exn .indexError s1
            | some reg2 => .ok { s1 with reg := reg2, pc := s1.pc + 2 }

/-- CPU.call: push pc + 2 on the stack, then set pc to the value of the
operand register (the operand byte is read from ram after the stack
write, exactly as in the source). -/
def call (s : CPUState) : Res :=
  let ret_addr : Int := s.pc + 2
  match pyGet s.reg 7 with
  | none => .exn .indexError s
  | some spv =>
    match pySet s.reg 7 (spv - 1) with
    | none => .exn .indexError s
    | some reg1 =>
      let s1 : CPUState := { s with reg := reg1 }
      match pyGet s1.reg 7 with
      | none => .exn .indexError s1
      | some top =>
        match pySet s1.ram top ret_addr with
        | none => .exn .indexError s1
        | some ram1 =>
          let s2 : CPUState := { s1 with ram := ram1 }
          match pyGet s2.ram (s2.pc + 1) with
          | none => .exn .indexError s2
          | some reg_num =>
            match pyGet s2.reg reg_num with
            | none => .exn .indexError s2
            | some target => .ok { s2 with pc := target }

/-- CPU.ret: pop the return address from the stack into pc. -/
def ret (s : CPUState) : Res :=
  match pyGet s.reg 7 with
  | none => .exn .indexError s
  | some spv =>
    match pyGet s.ram spv with
    | none => .exn .indexError s
    | some ret_addr =>
      match pySet s.reg 7 (spv + 1) with
      | none => .exn .indexError s
      | some reg1 => .ok { s with reg := reg1, pc := ret_addr }

/-- CPU.compare (the CMP handler). -/
def compareOp (s : CPUState) : Res :=
  match pyGet s.ram (s.pc + 1) with
  | none => .exn .indexError s
  | some a =>
    match pyGet s.ram (s.pc + 2) with
    | none => .exn .indexError s
    | some b =>
      match alu s "CMP" a (some b) with
      | .ok s1 => .ok { s1 with pc := s1.pc + 3 }
      | r => r

/-- CPU.jmp: set pc to the value of the operand register. -/
def jmp (s : CPUState) : Res :=
  match pyGet s.ram (s.pc + 1) with
  | none => .exn .indexError s
  | some reg_num =>
    match pyGet s.reg reg_num with
    | none => .exn .indexError s
    | some target => .ok { s with pc := target }

/-- CPU.jeq: jump when the equal flag is 1, else pc += 2. -/
def jeq (s : CPUState) : Res :=
  if s.e = 1 then jmp s else .ok { s with pc := s.pc + 2 }

/-- CPU.jne: jump when the equal flag is 0, else pc += 2. -/
def jne (s : CPUState) : Res :=
  if s.e = 0 then jmp s else .ok { s with pc := s.pc + 2 }

/-- CPU.AND. -/
def andOp (s : CPUState) : Res :=
  match pyGet s.ram (s.pc + 1) with
  | none => .exn .indexError s
  | some a =>
    match pyGet s.ram (s.pc + 2) with
    | none => .exn .indexError s
    | some b =>
      match alu s "AND" a (some b) with
      | .ok s1 => .ok { s1 with pc := s1.pc + 3 }
      | r => r

/-- CPU.OR. -/
def orOp (s : CPUState) : Res :=
  match pyGet s.ram (s.pc + 1) with
  | none => .exn .indexError s
  | some a =>
    match pyGet s.ram (s.pc + 2) with
    | none => .exn .indexError s
    | some b =>
      match alu s "OR" a (some b) with
      | .ok s1 => .ok { s1 with pc := s1.pc + 3 }
      | r => r

/-- CPU.xor. -/
def xorOp (s : CPUState) : Res :=
  match pyGet s.ram (s.pc + 1) with
  | none => .exn .indexError s
  | some a =>
    match pyGet s.ram (s.pc + 2) with
    | none => .exn .indexError s
    | some b =>
      match alu s "XOR" a (some b) with
      | .ok s1 => .ok { s1 with pc := s1.pc + 3 }
      | r => r

/-- CPU.NOT: one operand, alu("NOT", reg, None), pc += 2. -/
def notOp (s : CPUState) : Res :=
  match pyGet s.ram (s.pc + 1) with
  | none => .exn .indexError s
  | some a =>
    match alu s "NOT" a none with
    | .ok s1 => .ok { s1 with pc := s1.pc + 2 }
    | r => r

/-- Diagnostic printed by the run loop for an opcode missing from the
dispatch dictionary. -/
def invalidMsg (ir : Int) (pc : Int) : String :=
  "Invalid instruction " ++ toString ir ++ " at address " ++ toString pc

/-- Membership test for the dispatch dictionary ir_methods built in the
constructor. -/
def isDispatched (ir : Int) : Bool :=
  ir = HLT ∨ ir = LDI ∨ ir = PRN ∨ ir = MULT ∨ ir = PUSH ∨ ir = POP ∨
  ir = CALL ∨ ir = RET ∨ ir = ADD ∨ ir = CMP ∨ ir = JMP ∨ ir = JEQ ∨
  ir = JNE ∨ ir = AND ∨ ir = OR ∨ ir = XOR ∨ ir = NOT

/-- One iteration of the body of the while loop in CPU.run: fetch the
opcode at pc, dispatch through ir_methods; an opcode with no entry prints
the diagnostic, clears running and calls sys.exit(1). -/
def stepDispatch (s : CPUState) : Res :=
  match pyGet s.ram s.pc with
  | none => .exn .indexError s
  | some ir =>
    if ir = HLT then hlt s
    else if ir = LDI then ldi s
    else if ir = PRN then prn s
    else if ir = MULT then mult s
    else if ir = PUSH then push s
    else if ir = POP then pop s
    else if ir = CALL then call s
    else if ir = RET then ret s
    else if ir = ADD then add s
    else if ir = CMP then compareOp s
    else if ir = JMP then jmp s
    else if ir = JEQ then jeq s
    else if ir = JNE then jne s
    else if ir = AND then andOp s
    else if ir = OR then orOp s
    else if ir = XOR then xorOp s
    else if ir = NOT then notOp s
    else .exn (.systemExit 1)
      { s with output := s.output ++ [invalidMsg ir s.pc], running := false }

/-- Fuelled while loop of CPU.run: none means the fuel ran out with the
loop still going, some r means the loop finished with result r (normal
fall-through when running is false, otherwise the escaping exception). -/
def runLoop : Nat → CPUState → Option Res
  | 0, _ => none
  | n + 1, s =>
    if s.running then
      match stepDispatch s with
      | .ok s1 => runLoop n s1
      | r => some r
    else some (.ok s)

/-- CPU.run: set running to true and enter the while loop. -/
def runCPU (fuel : Nat) (s : CPUState) : Option Res :=
  runLoop fuel { s with running := true }

/-- Iterate stepDispatch a fixed number of times, stopping early at the
first exception; used to state facts about straight-line instruction
sequences. -/
def execN : Nat → CPUState → Res
  | 0, s => .ok s
  | n + 1, s =>
    match stepDispatch s with
    | .ok s1 => execN n s1
    | r => r

/-- State mutated by CPU.load: the ram being filled, the next load
address, and the diagnostics printed so far. -/
structure LoadState where
  ram : List Int
  address : Int
  output : List String
deriving Repr, DecidableEq

/-- Result of loading: normal completion, or an uncaught exception (the
ram assignment can raise IndexError, which the except clause around int()
does not catch). -/
inductive LoadRes where
  | ok : LoadState → LoadRes
  | err : String → LoadState → LoadRes
deriving Repr, DecidableEq

/-- Generic two-LDI-then-ALU program of claim C1: LDI r1,v1; LDI r2,v2;
then the 3-byte instruction with opcode byte opb on registers r1, r2. -/
def c1State (opb r1 r2 v1 v2 : Int) : CPUState :=
  { initState with
    ram := 130 :: r1 :: v1 :: 130 :: r2 :: v2 :: opb :: r1 :: r2 :: List.replicate 247 0,
    running := true }

/-- State of the C1 program after the first LDI. -/
def c1S1 (opb r1 r2 v1 v2 : Int) : CPUState :=
  { c1State opb r1 r2 v1 v2 with
    reg := (c1State opb r1 r2 v1 v2).reg.set r1.toNat v1,
    pc := (c1State opb r1 r2 v1 v2).pc + 3 }

/-- State of the C1 program after the second LDI. -/
def c1S2 (opb r1 r2 v1 v2 : Int) : CPUState :=
  { c1S1 opb r1 r2 v1 v2 with
    reg := (c1S1 opb r1 r2 v1 v2).reg.set r2.toNat v2,
    pc := (c1S1 opb r1 r2 v1 v2).pc + 3 }

/-- Whitespace characters of the program-file format (the ones
line.strip().split() acts on in the ASCII source files the loader
reads). -/
def isSpace (c : Char) : Bool :=
  c = ' ' ∨ c = '\t' ∨ c = '\n' ∨ c = '\r'

/-- Accumulating tokeniser: splits a line (given as its characters) into
maximal runs of non-whitespace characters. -/
def tokensAux : List Char → List Char → List (List Char)
  | [], acc => if acc = [] then [] else [acc.reverse]
  | c :: cs, acc =>
    if isSpace c then
      if acc = [] then tokensAux cs []
      else acc.reverse :: tokensAux cs []
    else tokensAux cs (c :: acc)

/-- Whitespace tokenisation of one source line: line.strip().split() in the
source, i.e. the maximal whitespace-free tokens of the line. -/
def tokens (line : List Char) : List (List Char) :=
  tokensAux line []

/-- Accumulator for parsing a string of binary digits. -/
def binVal : List Char → Int → Option Int
  | [], acc => some acc
  | c :: cs, acc =>
    if c = '0' then binVal cs (2 * acc)
    else if c = '1' then binVal cs (2 * acc + 1)
    else none

/-- Python int(tok, 2) on the tokens this loader meets: a nonempty string
of binary digits yields its value, anything else raises ValueError,
modelled as none. -/
def parseBin (tok : List Char) : Option Int :=
  match tok with
  | [] => none
  | c :: cs => binVal (c :: cs) 0

/-- One iteration of the for loop in CPU.load: skip the line when it has no
tokens or its first token is exactly the string of one hash character;
otherwise try to parse the first token and store it at ram[address].  A
ValueError is caught: the diagnostic is printed and the address is still
incremented (the increment sits after the try block).  An IndexError from
the ram assignment is not caught and aborts the load. -/
def loadLine (st : LoadState) (line : List Char) : LoadRes :=
  match tokens line with
  | [] => .ok st
  | t :: _ =>
    if t = ['#'] then .ok st
    else
      match parseBin t with
      | some v =>
        match pySet st.ram st.address v with
        | none => .err "IndexError" st
        | some ram1 => .ok { st with ram := ram1, address := st.address + 1 }
      | none =>
        .ok { st with output := st.output ++ ["Invalid number: " ++ String.mk t],
                      address := st.address + 1 }

/-- The for loop of CPU.load over all lines of the file. -/
def loadAll : LoadState → List (List Char) → LoadRes
  | st, [] => .ok st
  | st, l :: ls =>
    match loadLine st l with
    | .ok st1 => loadAll st1 ls
    | r => r

/-- CPU.load on a freshly constructed CPU, the file given as its list of
lines, each line its list of characters. -/
def load (lines : List (List Char)) : LoadRes :=
  loadAll { ram := List.replicate 256 0, address := 0, output := [] } lines

/-- A line whose first token is a parseable binary numeral and not the
hash token: exactly the lines that make CPU.load write one ram cell. -/
def validLine (line : List Char) : Prop :=
  ∃ t rest v, tokens line = t :: rest ∧ t ≠ ['#'] ∧ parseBin t = some v

/-- Program of claim C7: a NOT instruction on register 0, which holds 0. -/
def c7State : CPUState :=
  { initState with ram := [105, 0] ++ List.replicate 254 0, running := true }

/-- Concrete state for the C10 witness: reg[7] = 0, a PUSH of register 0
which holds 99. -/
def c10State : CPUState :=
  { initState with
    ram := [69, 0] ++ List.replicate 254 0,
    reg := [99, 0, 0, 0, 0, 0, 0, 0],
    running := true }

/-- Freshly constructed CPU with the run flag raised: all of memory is
zero, so the fetch at pc = 0 finds opcode 0, which has no dispatch
entry. -/
def c6State : CPUState := { initState with running := true }

/-- The program of claim C2: LDI r0,8; LDI r1,9; ADD r0,r1; PRN r0; HLT,
loaded at address 0 of an otherwise zero memory. -/
def c2State : CPUState :=
  { initState with
      ram := [130, 0, 8, 130, 1, 9, 160, 0, 1, 71, 0, 1] ++ List.replicate 244 0 }

/-- The state in which the C2 run ends. -/
def c2Final : CPUState :=
  { ram := [130, 0, 8, 130, 1, 9, 160, 0, 1, 71, 0, 1] ++ List.replicate 244 0,
    reg := [17, 9, 0, 0, 0, 0, 0, 244],
    running := false, pc := 11, e := 0, l := 0, g := 0, output := ["17"] }

/-- Concrete state for the C4 witness: PUSH r0 then POP r1 with r0 holding
99 and the stack pointer at its initial 0xF4. -/
def c4State : CPUState :=
  { initState with
    ram := [69, 0, 70, 1] ++ List.replicate 252 0,
    reg := [99, 0, 0, 0, 0, 0, 0, 244] }

/-- Concrete state for the C3 witness: a CALL through register 2, which
holds subroutine address 10, executed at address 0 with the stack pointer
at its initial 0xF4. -/
def c3Start : CPUState :=
  { initState with
    ram := [80, 2] ++ List.replicate 254 0,
    reg := [0, 0, 10, 0, 0, 0, 0, 244] }

/-- The state after the CALL of the C3 witness: return address 2 pushed at
ram[243], stack pointer 243, pc at the subroutine address 10. -/
def c3After : CPUState :=
  { c3Start with
    ram := c3Start.ram.set 243 2,
    reg := [0, 0, 10, 0, 0, 0, 0, 243],
    pc := 10 }

/-- Concrete state for the C5 witness: CMP r0,r1 with both holding 5, then
JEQ through register 2 which holds target address 30. -/
def c5State : CPUState :=
  { initState with
    ram := [167, 0, 1, 85, 2] ++ List.replicate 251 0,
    reg := [5, 5, 30, 0, 0, 0, 0, 244] }

/-- Initial loader state of a freshly constructed CPU. -/
def c9Init : LoadState := { ram := List.replicate 256 0, address := 0, output := [] }

/-- A 257-line program, each line the valid binary numeral 1. -/
def c8Lines : List (List Char) := List.replicate 257 ['1']

theorem pyIdx_some_lt {len : Nat} {i : Int} {n : Nat} (h : pyIdx len i = some n) :
    n < len := by
  unfold pyIdx at h
  split at h <;> split at h <;> simp_all <;> omega

theorem pyIdx_eq_some_of_nonneg {len : Nat} {i : Int} (h0 : 0 ≤ i)
    (h1 : i < (len : Int)) : pyIdx len i = some i.toNat := by
  unfold pyIdx
  rw [if_pos h0, if_pos h1]

theorem pyIdx_inv_of_nonneg {len : Nat} {i : Int} {n : Nat} (h0 : 0 ≤ i)
    (h : pyIdx len i = some n) : (n : Int) = i ∧ i < (len : Int) := by
  unfold pyIdx at h
  rw [if_pos h0] at h
  split at h <;> simp_all
  omega

theorem pyIdx_isSome {len : Nat} {i : Int} (h0 : -(len : Int) ≤ i)
    (h1 : i < (len : Int)) : ∃ n, pyIdx len i = some n := by
  unfold pyIdx
  rw [if_pos h1]
  split
  · exact ⟨_, rfl⟩
  · split
    · exact ⟨_, rfl⟩
    · omega

theorem pyGet_of_pyIdx {xs : List Int} {i : Int} {n : Nat}
    (h : pyIdx xs.length i = some n) : pyGet xs i = xs[n]? := by
  simp [pyGet, h]

theorem pySet_of_pyIdx {xs : List Int} {i : Int} {n : Nat} (v : Int)
    (h : pyIdx xs.length i = some n) : pySet xs i v = some (xs.set n v) := by
  simp [pySet, h]

theorem pyGet_inv {xs : List Int} {i : Int} {w : Int} (h : pyGet xs i = some w) :
    ∃ n, pyIdx xs.length i = some n ∧ xs[n]? = some w := by
  unfold pyGet at h
  cases hidx : pyIdx xs.length i with
  | none => rw [hidx] at h; cases h
  | some n => rw [hidx] at h; exact ⟨n, rfl, h⟩

theorem pySet_some_of_pyGet {xs : List Int} {i : Int} {w : Int} (v : Int)
    (h : pyGet xs i = some w) :
    ∃ n, pyIdx xs.length i = some n ∧ pySet xs i v = some (xs.set n v) := by
  obtain ⟨n, hidx, _⟩ := pyGet_inv h
  exact ⟨n, hidx, pySet_of_pyIdx v hidx⟩

theorem pyGet_pySet_self {xs ys : List Int} {i : Int} {v : Int}
    (h : pySet xs i v = some ys) : pyGet ys i = some v := by
  unfold pySet at h
  cases hidx : pyIdx xs.length i with
  | none => rw [hidx] at h; cases h
  | some n =>
    rw [hidx] at h
    have hy : ys = xs.set n v := by simpa using h.symm
    subst hy
    have hlen : (xs.set n v).length = xs.length := List.length_set xs n v
    have hidx2 : pyIdx (xs.set n v).length i = some n := by rw [hlen]; exact hidx
    rw [pyGet_of_pyIdx hidx2]
    have hn := pyIdx_some_lt hidx
    simp [List.getElem?_set_self, hn]

theorem pyGet_pySet_ne {xs ys : List Int} {i j : Int} {v : Int} {n m : Nat}
    (h : pySet xs i v = some ys)
    (hi : pyIdx xs.length i = some n)
    (hj : pyIdx xs.length j = some m)
    (hnm : n ≠ m) : pyGet ys j = pyGet xs j := by
  unfold pySet at h
  rw [hi] at h
  have hy : ys = xs.set n v := by simpa using h.symm
  subst hy
  have hlen : (xs.set n v).length = xs.length := List.length_set xs n v
  have hj2 : pyIdx (xs.set n v).length j = some m := by rw [hlen]; exact hj
  rw [pyGet_of_pyIdx hj2, pyGet_of_pyIdx hj]
  exact List.getElem?_set_ne hnm

theorem pyGet_set_self (xs : List Int) (i : Int) (v : Int) (h0 : 0 ≤ i)
    (h : i < (xs.length : Int)) : pyGet (xs.set i.toNat v) i = some v :=
  pyGet_pySet_self (pySet_of_pyIdx v (pyIdx_eq_some_of_nonneg h0 h))

theorem pyGet_set_ne (xs : List Int) (i : Int) (n : Nat) (v : Int) (h0 : 0 ≤ i)
    (h : i < (xs.length : Int)) (hne : i.toNat ≠ n) :
    pyGet (xs.set n v) i = pyGet xs i := by
  have hlen : (xs.set n v).length = xs.length := List.length_set xs n v
  have hi : pyIdx xs.length i = some i.toNat := pyIdx_eq_some_of_nonneg h0 h
  have hi2 : pyIdx (xs.set n v).length i = some i.toNat := by rw [hlen]; exact hi
  rw [pyGet_of_pyIdx hi2, pyGet_of_pyIdx hi]
  exact List.getElem?_set_ne (fun hx => hne hx.symm)

theorem lnot_eq_neg_succ (v : Int) : Int.lnot v = -(v + 1) := by
  cases v with
  | ofNat m => simp [Int.lnot, Int.negSucc_eq]
  | negSucc m => simp [Int.lnot, Int.negSucc_eq]

theorem stepDispatch_ldi {s : CPUState} (h : pyGet s.ram s.pc = some 130) :
    stepDispatch s = ldi s := by
  simp [stepDispatch, h, HLT, LDI]

theorem stepDispatch_add {s : CPUState} (h : pyGet s.ram s.pc = some 160) :
    stepDispatch s = add s := by
  simp [stepDispatch, h, HLT, LDI, PRN, MULT, PUSH, POP, CALL, RET, ADD]

theorem stepDispatch_mult {s : CPUState} (h : pyGet s.ram s.pc = some 162) :
    stepDispatch s = mult s := by
  simp [stepDispatch, h, HLT, LDI, PRN, MULT]

theorem ldi_spec {s : CPUState} {r v : Int}
    (h1 : pyGet s.ram (s.pc + 1) = some r) (h2 : pyGet s.ram (s.pc + 2) = some v)
    (hr0 : 0 ≤ r) (hr : r < (s.reg.length : Int)) :
    ldi s = .ok { s with reg := s.reg.set r.toNat v, pc := s.pc + 3 } := by
  simp only [ldi, h1, h2, ram_write,
    pySet_of_pyIdx v (pyIdx_eq_some_of_nonneg hr0 hr)]

theorem add_spec {s : CPUState} {a b va vb : Int}
    (h1 : pyGet s.ram (s.pc + 1) = some a) (h2 : pyGet s.ram (s.pc + 2) = some b)
    (ha0 : 0 ≤ a) (ha : a < (s.reg.length : Int))
    (hva : pyGet s.reg a = some va) (hvb : pyGet s.reg b = some vb) :
    add s = .ok { s with reg := s.reg.set a.toNat (va + vb), pc := s.pc + 3 } := by
  simp only [add, h1, h2, alu, if_pos rfl, hva, hvb,
    pySet_of_pyIdx (va + vb) (pyIdx_eq_some_of_nonneg ha0 ha), ite_true]

theorem mult_spec {s : CPUState} {a b va vb : Int}
    (h1 : pyGet s.ram (s.pc + 1) = some a) (h2 : pyGet s.ram (s.pc + 2) = some b)
    (ha0 : 0 ≤ a) (ha : a < (s.reg.length : Int))
    (hva : pyGet s.reg a = some va) (hvb : pyGet s.reg b = some vb) :
    mult s = .ok { s with reg := s.reg.set a.toNat (va * vb), pc := s.pc + 3 } := by
  simp only [mult, h1, h2, alu, if_neg (by decide : ¬("MULT" : String) = "ADD"),
    if_pos rfl, hva, hvb,
    pySet_of_pyIdx (va * vb) (pyIdx_eq_some_of_nonneg ha0 ha), ite_true]

theorem notOp_spec {s : CPUState} {a va : Int}
    (h1 : pyGet s.ram (s.pc + 1) = some a)
    (ha0 : 0 ≤ a) (ha : a < (s.reg.length : Int))
    (hva : pyGet s.reg a = some va) :
    notOp s = .ok { s with reg := s.reg.set a.toNat (Int.lnot va), pc := s.pc + 2 } := by
  simp only [notOp, h1, alu,
    if_neg (by decide : ¬("NOT" : String) = "ADD"),
    if_neg (by decide : ¬("NOT" : String) = "MULT"),
    if_neg (by decide : ¬("NOT" : String) = "CMP"),
    if_neg (by decide : ¬("NOT" : String) = "AND"),
    if_neg (by decide : ¬("NOT" : String) = "OR"),
    if_neg (by decide : ¬("NOT" : String) = "XOR"),
    if_pos rfl, hva,
    pySet_of_pyIdx (Int.lnot va) (pyIdx_eq_some_of_nonneg ha0 ha), ite_true]

theorem compareOp_spec {s : CPUState} {a b va vb : Int}
    (h1 : pyGet s.ram (s.pc + 1) = some a) (h2 : pyGet s.ram (s.pc + 2) = some b)
    (hva : pyGet s.reg a = some va) (hvb : pyGet s.reg b = some vb) :
    compareOp s = .ok { s with
      e := (if va = vb then 1 else 0),
      l := (if va < vb then 1 else 0),
      g := (if vb < va then 1 else 0),
      pc := s.pc + 3 } := by
  simp only [compareOp, h1, h2, alu,
    if_neg (by decide : ¬("CMP" : String) = "ADD"),
    if_neg (by decide : ¬("CMP" : String) = "MULT"),
    if_pos rfl, hva, hvb, ite_true]

theorem push_spec {s : CPUState} {r v spv : Int} {ns : Nat}
    (hsp : pyGet s.reg 7 = some spv)
    (hop : pyGet s.ram (s.pc + 1) = some r)
    (hr0 : 0 ≤ r) (hr7 : r < 7)
    (hv : pyGet s.reg r = some v)
    (hns : pyIdx s.ram.length (spv - 1) = some ns) :
    push s = .ok { s with
      reg := s.reg.set 7 (spv - 1),
      ram := s.ram.set ns v,
      pc := s.pc + 2 } := by
  obtain ⟨m7, hm7, _⟩ := pyGet_inv hsp
  obtain ⟨h7eq, h7lt⟩ := pyIdx_inv_of_nonneg (by norm_num) hm7
  obtain ⟨mr, hmr, _⟩ := pyGet_inv hv
  obtain ⟨hreq, hrlt⟩ := pyIdx_inv_of_nonneg hr0 hmr
  have hset7 : pySet s.reg 7 (spv - 1) = some (s.reg.set 7 (spv - 1)) := by
    have := pySet_of_pyIdx (spv - 1) (pyIdx_eq_some_of_nonneg (by norm_num) h7lt)
    simpa using this
  have hvget : pyGet (s.reg.set 7 (spv - 1)) r = some v := by
    have := pyGet_set_ne s.reg r 7 (spv - 1) hr0 hrlt (by omega)
    rw [this, hv]
  have htop : pyGet (s.reg.set 7 (spv - 1)) 7 = some (spv - 1) := by
    have := pyGet_set_self s.reg 7 (spv - 1) (by norm_num) h7lt
    simpa using this
  have hramset : pySet s.ram (spv - 1) v = some (s.ram.set ns v) :=
    pySet_of_pyIdx v hns
  simp only [push, hsp, hset7, hop, hvget, htop, hramset]

theorem pop_spec {s : CPUState} {r w spv : Int}
    (hsp : pyGet s.reg 7 = some spv)
    (hval : pyGet s.ram spv = some w)
    (hop : pyGet s.ram (s.pc + 1) = some r)
    (hr0 : 0 ≤ r) (hr7 : r < 7) :
    pop s = .ok { s with
      reg := (s.reg.set r.toNat w).set 7 (spv + 1),
      pc := s.pc + 2 } := by
  obtain ⟨m7, hm7, _⟩ := pyGet_inv hsp
  obtain ⟨h7eq, h7lt⟩ := pyIdx_inv_of_nonneg (by norm_num) hm7
  have hrlt : r < (s.reg.length : Int) := by omega
  have hsetr : pySet s.reg r w = some (s.reg.set r.toNat w) :=
    pySet_of_pyIdx w (pyIdx_eq_some_of_nonneg hr0 hrlt)
  have hsp2 : pyGet (s.reg.set r.toNat w) 7 = some spv := by
    have := pyGet_set_ne s.reg 7 r.toNat w (by norm_num) h7lt (by omega)
    rw [this, hsp]
  have hset7 : pySet (s.reg.set r.toNat w) 7 (spv + 1) =
      some ((s.reg.set r.toNat w).set 7 (spv + 1)) := by
    have h7lt2 : (7 : Int) < ((s.reg.set r.toNat w).length : Int) := by
      rw [List.length_set]; exact h7lt
    have := pySet_of_pyIdx (spv + 1) (pyIdx_eq_some_of_nonneg (by norm_num) h7lt2)
    simpa using this
  simp only [pop, hsp, hval, hop, hsetr, hsp2, hset7]

theorem stepDispatch_invalid {s : CPUState} {ir : Int}
    (hfetch : pyGet s.ram s.pc = some ir)
    (hbad : isDispatched ir = false) :
    stepDispatch s = .exn (.systemExit 1)
      { s with output := s.output ++ [invalidMsg ir s.pc], running := false } := by
  simp only [isDispatched, decide_eq_false_iff_not, not_or] at hbad
  obtain ⟨n1, n2, n3, n4, n5, n6, n7, n8, n9, n10, n11, n12, n13, n14, n15, n16, n17⟩ := hbad
  simp only [stepDispatch, hfetch, if_neg n1, if_neg n2, if_neg n3, if_neg n4,
    if_neg n5, if_neg n6, if_neg n7, if_neg n8, if_neg n9, if_neg n10,
    if_neg n11, if_neg n12, if_neg n13, if_neg n14, if_neg n15, if_neg n16,
    if_neg n17]

/-- C7 counterexample: executing NOT on a register holding 0 stores -1
(the unmasked Python complement), not (255 - 0) = 255 as the claim
requires; the stored value escapes [0,255]. -/
theorem c7_counterexample :
    pyGet (stepDispatch c7State).state.reg 0 = some (-1) ∧
    pyGet (stepDispatch c7State).state.reg 0 ≠ some 255 := by
  exact ⟨by decide, by decide⟩

/-- C7 amended: executing NOT on a register holding v stores the unmasked
Python complement ~v = -(v+1) (negative whenever 0 ≤ v, hence outside
[0,255]), not the 8-bit-masked complement 255 - v. -/
theorem c7_amended (s : CPUState) (a v : Int)
    (hop : pyGet s.ram (s.pc + 1) = some a)
    (ha0 : 0 ≤ a) (ha : a < (s.reg.length : Int))
    (hv : pyGet s.reg a = some v) :
    ∃ s1, notOp s = .ok s1 ∧ pyGet s1.reg a = some (-(v + 1)) ∧
      s1.pc = s.pc + 2 ∧ (0 ≤ v → -(v + 1) < 0) := by
  refine ⟨_, notOp_spec hop ha0 ha hv, ?_, rfl, by omega⟩
  show pyGet (s.reg.set a.toNat (Int.lnot v)) a = some (-(v + 1))
  rw [lnot_eq_neg_succ]
  exact pyGet_set_self s.reg a _ ha0 ha

/-- Witness for C7 amended at the concrete NOT program on register 0
holding 0. -/
theorem c7_witness :
    ∃ s1, notOp c7State = .ok s1 ∧ pyGet s1.reg 0 = some (-((0:Int) + 1)) ∧
      s1.pc = c7State.pc + 2 ∧ (0 ≤ (0:Int) → -((0:Int) + 1) < 0) :=
  c7_amended c7State 0 0 (by decide) (by decide) (by decide) (by decide)

/-- C10: PUSH with the stack pointer register holding 0 raises no error;
reg[7] becomes -1 and the value lands in ram cell 255 through Python
negative-index wraparound. -/
theorem c10_push_wraparound (s : CPUState) (r v : Int)
    (hram : s.ram.length = 256)
    (hsp : pyGet s.reg 7 = some 0)
    (hop : pyGet s.ram (s.pc + 1) = some r)
    (hr0 : 0 ≤ r) (hr7 : r < 7)
    (hv : pyGet s.reg r = some v) :
    ∃ s1, push s = .ok s1 ∧ pyGet s1.reg 7 = some (-1) ∧
      pyGet s1.ram 255 = some v ∧ (-1 : Int) < 0 := by
  have hns : pyIdx s.ram.length ((0 : Int) - 1) = some 255 := by
    rw [hram]; decide
  refine ⟨_, push_spec hsp hop hr0 hr7 hv hns, ?_, ?_, by norm_num⟩
  · obtain ⟨m7, hm7, _⟩ := pyGet_inv hsp
    obtain ⟨h7eq, h7lt⟩ := pyIdx_inv_of_nonneg (by norm_num) hm7
    have h := pyGet_set_self s.reg 7 ((0 : Int) - 1) (by norm_num) h7lt
    simpa using h
  · have hlt : (255 : Int) < (s.ram.length : Int) := by rw [hram]; norm_num
    have h := pyGet_set_self s.ram 255 v (by norm_num) hlt
    simpa using h

/-- Witness for C10 at the concrete state. -/
theorem c10_witness :
    ∃ s1, push c10State = .ok s1 ∧ pyGet s1.reg 7 = some (-1) ∧
      pyGet s1.ram 255 = some 99 ∧ (-1 : Int) < 0 :=
  c10_push_wraparound c10State 0 99 (by decide) (by decide) (by decide)
    (by decide) (by decide) (by decide)

/-- C6: whenever the engine is running and the fetched opcode has no entry
in the dispatch dictionary, the run loop prints the invalid-instruction
diagnostic naming the opcode and the current pc, clears the running flag,
and raises SystemExit(1) without executing anything further. -/
theorem c6_invalid_instruction (s : CPUState) (ir : Int) (n : Nat)
    (hrun : s.running = true)
    (hfetch : pyGet s.ram s.pc = some ir)
    (hbad : isDispatched ir = false) :
    runLoop (n + 1) s = some (.exn (.systemExit 1)
      { s with output := s.output ++ [invalidMsg ir s.pc], running := false }) ∧
    invalidMsg ir s.pc =
      "Invalid instruction " ++ toString ir ++ " at address " ++ toString s.pc := by
  refine ⟨?_, rfl⟩
  simp only [runLoop, hrun, if_true, stepDispatch_invalid hfetch hbad]

/-- Witness for C6: a HLT-less (entirely empty) program halts at once with
the invalid-instruction diagnostic at address 0. -/
theorem c6_witness :
    runLoop (0 + 1) c6State = some (.exn (.systemExit 1)
      { c6State with
        output := c6State.output ++ [invalidMsg 0 c6State.pc],
        running := false }) ∧
    invalidMsg 0 c6State.pc =
      "Invalid instruction " ++ toString (0 : Int) ++ " at address " ++ toString c6State.pc :=
  c6_invalid_instruction c6State 0 0 rfl (by decide) (by decide)

/-- C2 counterexample: the run does print "17" and clear the running flag,
but it does not end cleanly: HLT calls sys.exit(1), so the run raises
SystemExit with exit status 1 instead of returning normally. -/
theorem c2_counterexample :
    runCPU 6 c2State = some (.exn (.systemExit 1) c2Final) ∧
    runCPU 6 c2State ≠ some (.ok c2Final) := by
  exact ⟨by decide, by decide⟩

/-- C2 amended: the run prints exactly "17" and running becomes false, but
the engine terminates by raising SystemExit with exit status 1 (no
diagnostic text is printed). -/
theorem c2_amended :
    runCPU 6 c2State = some (.exn (.systemExit 1) c2Final) ∧
    c2Final.output = ["17"] ∧ c2Final.running = false := by
  exact ⟨by decide, rfl, rfl⟩

/-- C4: PUSH of register r1 immediately followed by POP into a different
register r2 (neither the stack-pointer register 7) restores the stack
pointer and transports the value, provided the stack cell written by the
push resolves to a ram index distinct from the cell holding the POP
operand byte. -/
theorem c4_push_pop (s : CPUState) (r1 r2 v spv : Int) (ns m3 : Nat)
    (hsp : pyGet s.reg 7 = some spv)
    (hr10 : 0 ≤ r1) (hr17 : r1 < 7)
    (hr20 : 0 ≤ r2) (hr27 : r2 < 7)
    (hne : r1 ≠ r2)
    (hop1 : pyGet s.ram (s.pc + 1) = some r1)
    (hop2 : pyGet s.ram (s.pc + 3) = some r2)
    (hv : pyGet s.reg r1 = some v)
    (hns : pyIdx s.ram.length (spv - 1) = some ns)
    (hm3 : pyIdx s.ram.length (s.pc + 3) = some m3)
    (hnm : ns ≠ m3) :
    ∃ s1 s2, push s = .ok s1 ∧ pop s1 = .ok s2 ∧
      pyGet s2.reg r2 = some v ∧ pyGet s2.reg 7 = some spv := by
  have hlen7 : (7 : Int) < (s.reg.length : Int) := by
    obtain ⟨m7, hm7, _⟩ := pyGet_inv hsp
    exact (pyIdx_inv_of_nonneg (by norm_num) hm7).2
  have hpush := push_spec hsp hop1 hr10 hr17 hv hns
  have hsp1 : pyGet (s.reg.set 7 (spv - 1)) 7 = some (spv - 1) := by
    have := pyGet_set_self s.reg 7 (spv - 1) (by norm_num) hlen7
    simpa using this
  have hramset : pySet s.ram (spv - 1) v = some (s.ram.set ns v) :=
    pySet_of_pyIdx v hns
  have hval1 : pyGet (s.ram.set ns v) (spv - 1) = some v := pyGet_pySet_self hramset
  have hop2a : pyGet (s.ram.set ns v) (s.pc + 2 + 1) = some r2 := by
    have h32 : s.pc + 2 + 1 = s.pc + 3 := by ring
    rw [h32, pyGet_pySet_ne hramset hns hm3 hnm]
    exact hop2
  have hpop := pop_spec (s := { s with
      reg := s.reg.set 7 (spv - 1),
      ram := s.ram.set ns v,
      pc := s.pc + 2 }) hsp1 hval1 hop2a hr20 hr27
  refine ⟨_, _, hpush, hpop, ?_, ?_⟩
  · show pyGet (((s.reg.set 7 (spv - 1)).set r2.toNat v).set 7 (spv - 1 + 1)) r2
      = some v
    have hl1 : ((s.reg.set 7 (spv - 1)).set r2.toNat v).length = s.reg.length := by
      simp [List.length_set]
    have hr2a : r2 < (((s.reg.set 7 (spv - 1)).set r2.toNat v).length : Int) := by
      rw [hl1]; omega
    rw [pyGet_set_ne _ r2 7 _ hr20 hr2a (by omega)]
    have hr2b : r2 < ((s.reg.set 7 (spv - 1)).length : Int) := by
      rw [List.length_set]; omega
    exact pyGet_set_self _ r2 v hr20 hr2b
  · show pyGet (((s.reg.set 7 (spv - 1)).set r2.toNat v).set 7 (spv - 1 + 1)) 7
      = some spv
    have hl1 : ((s.reg.set 7 (spv - 1)).set r2.toNat v).length = s.reg.length := by
      simp [List.length_set]
    have h7a : (7 : Int) < (((s.reg.set 7 (spv - 1)).set r2.toNat v).length : Int) := by
      rw [hl1]; exact hlen7
    have h := pyGet_set_self _ 7 (spv - 1 + 1) (by norm_num) h7a
    have hv1 : spv - 1 + 1 = spv := by ring
    rw [hv1] at h
    simpa using h

/-- Witness for C4 at the concrete state. -/
theorem c4_witness :
    ∃ s1 s2, push c4State = .ok s1 ∧ pop s1 = .ok s2 ∧
      pyGet s2.reg 1 = some 99 ∧ pyGet s2.reg 7 = some 244 :=
  c4_push_pop c4State 0 1 99 244 243 3 (by decide) (by decide) (by decide)
    (by decide) (by decide) (by decide) (by decide) (by decide) (by decide)
    (by decide) (by decide) (by decide)

/-- C3: if a CALL at call site s1.pc succeeds, then any RET executed in a
state whose stack pointer equals the one left by the CALL and whose stack
cell at that address is unchanged sets pc to exactly s1.pc + 2, the
address after the 2-byte CALL. -/
theorem c3_call_ret (s1 s1c s2 : CPUState) (sp : Int)
    (hcall : call s1 = .ok s1c)
    (hsp1 : pyGet s1c.reg 7 = some sp)
    (hsp2 : pyGet s2.reg 7 = some sp)
    (hcell : pyGet s2.ram sp = pyGet s1c.ram sp) :
    ∃ s2f, ret s2 = .ok s2f ∧ s2f.pc = s1.pc + 2 := by
  simp only [call] at hcall
  cases h1 : pyGet s1.reg 7 with
  | none => simp [h1] at hcall
  | some spv =>
    simp only [h1] at hcall
    cases h2 : pySet s1.reg 7 (spv - 1) with
    | none => simp [h2] at hcall
    | some reg1 =>
      simp only [h2] at hcall
      have htop : pyGet reg1 7 = some (spv - 1) := pyGet_pySet_self h2
      simp only [htop] at hcall
      cases h3 : pySet s1.ram (spv - 1) (s1.pc + 2) with
      | none => simp [h3] at hcall
      | some ram1 =>
        simp only [h3] at hcall
        cases h4 : pyGet ram1 (s1.pc + 1) with
        | none => simp [h4] at hcall
        | some reg_num =>
          simp only [h4] at hcall
          cases h5 : pyGet reg1 reg_num with
          | none => simp [h5] at hcall
          | some target =>
            simp only [h5, Res.ok.injEq] at hcall
            subst hcall
            simp only at hsp1 hcell
            rw [htop] at hsp1
            have hspv : spv - 1 = sp := Option.some.inj hsp1
            subst hspv
            rw [pyGet_pySet_self h3] at hcell
            obtain ⟨n2, hn2, hset2⟩ := pySet_some_of_pyGet (spv - 1 + 1) hsp2
            refine ⟨{ s2 with
              reg := s2.reg.set n2 (spv - 1 + 1),
              pc := s1.pc + 2 }, ?_, rfl⟩
            simp only [ret, hsp2, hcell, hset2]

/-- Witness for C3: the subroutine body is empty, so RET runs in the state
the CALL produced and lands on address 2 = 0 + 2. -/
theorem c3_witness :
    ∃ s2f, ret c3After = .ok s2f ∧ s2f.pc = c3Start.pc + 2 :=
  c3_call_ret c3Start c3After c3After 243 (by decide) (by decide) (by decide) rfl

theorem jmp_spec {s : CPUState} {r target : Int}
    (hop : pyGet s.ram (s.pc + 1) = some r)
    (ht : pyGet s.reg r = some target) :
    jmp s = .ok { s with pc := target } := by
  simp only [jmp, hop, ht]

/-- C5: after CMP on registers a and b, an immediately following JEQ jumps
to the value of its operand register exactly when the compared registers
were equal, and otherwise advances pc by 2. -/
theorem c5_cmp_jeq (s : CPUState) (a b t va vb target : Int)
    (hop1 : pyGet s.ram (s.pc + 1) = some a)
    (hop2 : pyGet s.ram (s.pc + 2) = some b)
    (hva : pyGet s.reg a = some va)
    (hvb : pyGet s.reg b = some vb)
    (hop3 : pyGet s.ram (s.pc + 4) = some t)
    (ht : pyGet s.reg t = some target) :
    ∃ s1, compareOp s = .ok s1 ∧
      (va = vb → ∃ s2, jeq s1 = .ok s2 ∧ s2.pc = target) ∧
      (va ≠ vb → ∃ s2, jeq s1 = .ok s2 ∧ s2.pc = s1.pc + 2) := by
  have hop3a : pyGet s.ram (s.pc + 3 + 1) = some t := by
    have h : s.pc + 3 + 1 = s.pc + 4 := by ring
    rw [h]; exact hop3
  refine ⟨_, compareOp_spec hop1 hop2 hva hvb, ?_, ?_⟩
  · intro heq
    refine ⟨{ s with
      e := (if va = vb then 1 else 0),
      l := (if va < vb then 1 else 0),
      g := (if vb < va then 1 else 0),
      pc := target }, ?_, rfl⟩
    have hj := jmp_spec (s := { s with
      e := (if va = vb then 1 else 0),
      l := (if va < vb then 1 else 0),
      g := (if vb < va then 1 else 0),
      pc := s.pc + 3 }) hop3a ht
    simp only [jeq]
    rw [if_pos (by simp [heq])]
    exact hj
  · intro hne2
    refine ⟨{ s with
      e := (if va = vb then 1 else 0),
      l := (if va < vb then 1 else 0),
      g := (if vb < va then 1 else 0),
      pc := s.pc + 3 + 2 }, ?_, rfl⟩
    simp only [jeq]
    rw [if_neg (by simp [hne2])]

/-- Witness for C5 at the concrete state (the equal branch jumps to 30,
and the vacuous unequal branch). -/
theorem c5_witness :
    ∃ s1, compareOp c5State = .ok s1 ∧
      ((5:Int) = 5 → ∃ s2, jeq s1 = .ok s2 ∧ s2.pc = 30) ∧
      ((5:Int) ≠ 5 → ∃ s2, jeq s1 = .ok s2 ∧ s2.pc = s1.pc + 2) :=
  c5_cmp_jeq c5State 0 1 2 5 5 30 (by decide) (by decide) (by decide)
    (by decide) (by decide) (by decide)

theorem execN_succ_ok {n : Nat} {s s1 : CPUState} (h : stepDispatch s = .ok s1) :
    execN (n + 1) s = execN n s1 := by
  simp [execN, h]

theorem c1_reg_len (opb r1 r2 v1 v2 : Int) :
    (c1State opb r1 r2 v1 v2).reg.length = 8 := by
  simp [c1State, initState]

theorem c1S1_reg_len (opb r1 r2 v1 v2 : Int) :
    (c1S1 opb r1 r2 v1 v2).reg.length = 8 := by
  simp [c1S1, c1_reg_len]

theorem c1S2_reg_len (opb r1 r2 v1 v2 : Int) :
    (c1S2 opb r1 r2 v1 v2).reg.length = 8 := by
  simp [c1S2, c1S1_reg_len]

theorem c1_step1 (opb r1 r2 v1 v2 : Int) (hr10 : 0 ≤ r1) (hr18 : r1 < 8) :
    stepDispatch (c1State opb r1 r2 v1 v2) = .ok (c1S1 opb r1 r2 v1 v2) := by
  rw [stepDispatch_ldi (s := c1State opb r1 r2 v1 v2) rfl]
  exact ldi_spec rfl rfl hr10 (by rw [c1_reg_len]; exact_mod_cast hr18)

theorem c1_step2 (opb r1 r2 v1 v2 : Int) (hr20 : 0 ≤ r2) (hr28 : r2 < 8) :
    stepDispatch (c1S1 opb r1 r2 v1 v2) = .ok (c1S2 opb r1 r2 v1 v2) := by
  rw [stepDispatch_ldi (s := c1S1 opb r1 r2 v1 v2) rfl]
  exact ldi_spec rfl rfl hr20 (by rw [c1S1_reg_len]; exact_mod_cast hr28)

theorem c1_regs_after_two (opb r1 r2 v1 v2 : Int) (hr10 : 0 ≤ r1) (hr18 : r1 < 8)
    (hr20 : 0 ≤ r2) (hr28 : r2 < 8) (hne : r1 ≠ r2) :
    pyGet (c1S2 opb r1 r2 v1 v2).reg r1 = some v1 ∧
    pyGet (c1S2 opb r1 r2 v1 v2).reg r2 = some v2 := by
  constructor
  · show pyGet ((c1S1 opb r1 r2 v1 v2).reg.set r2.toNat v2) r1 = some v1
    rw [pyGet_set_ne _ r1 r2.toNat v2 hr10
      (by rw [c1S1_reg_len]; exact_mod_cast hr18) (by omega)]
    show pyGet ((c1State opb r1 r2 v1 v2).reg.set r1.toNat v1) r1 = some v1
    exact pyGet_set_self _ r1 v1 hr10 (by rw [c1_reg_len]; exact_mod_cast hr18)
  · show pyGet ((c1S1 opb r1 r2 v1 v2).reg.set r2.toNat v2) r2 = some v2
    exact pyGet_set_self _ r2 v2 hr20 (by rw [c1S1_reg_len]; exact_mod_cast hr28)

theorem c1_step3_add (r1 r2 v1 v2 : Int) (hr10 : 0 ≤ r1) (hr18 : r1 < 8)
    (hr20 : 0 ≤ r2) (hr28 : r2 < 8) (hne : r1 ≠ r2) :
    stepDispatch (c1S2 160 r1 r2 v1 v2) = .ok { c1S2 160 r1 r2 v1 v2 with
      reg := (c1S2 160 r1 r2 v1 v2).reg.set r1.toNat (v1 + v2),
      pc := (c1S2 160 r1 r2 v1 v2).pc + 3 } := by
  obtain ⟨hva, hvb⟩ := c1_regs_after_two 160 r1 r2 v1 v2 hr10 hr18 hr20 hr28 hne
  rw [stepDispatch_add (s := c1S2 160 r1 r2 v1 v2) rfl]
  exact add_spec rfl rfl hr10 (by rw [c1S2_reg_len]; exact_mod_cast hr18) hva hvb

theorem c1_step3_mult (r1 r2 v1 v2 : Int) (hr10 : 0 ≤ r1) (hr18 : r1 < 8)
    (hr20 : 0 ≤ r2) (hr28 : r2 < 8) (hne : r1 ≠ r2) :
    stepDispatch (c1S2 162 r1 r2 v1 v2) = .ok { c1S2 162 r1 r2 v1 v2 with
      reg := (c1S2 162 r1 r2 v1 v2).reg.set r1.toNat (v1 * v2),
      pc := (c1S2 162 r1 r2 v1 v2).pc + 3 } := by
  obtain ⟨hva, hvb⟩ := c1_regs_after_two 162 r1 r2 v1 v2 hr10 hr18 hr20 hr28 hne
  rw [stepDispatch_mult (s := c1S2 162 r1 r2 v1 v2) rfl]
  exact mult_spec rfl rfl hr10 (by rw [c1S2_reg_len]; exact_mod_cast hr18) hva hvb

/-- C1 counterexample: MULT of a register holding 200 by a register
holding 2 stores 400, not (200*2) mod 256 = 144: the ALU does not wrap
modulo 256. -/
theorem c1_counterexample :
    pyGet (execN 3 (c1State 162 0 1 200 2)).state.reg 0 = some 400 ∧
    pyGet (execN 3 (c1State 162 0 1 200 2)).state.reg 0 ≠ some ((200 * 2) % 256) := by
  exact ⟨by decide, by decide⟩

/-- C1 amended: for distinct valid register indices, ADD stores the exact
sum v1 + v2 and MULT the exact product v1 * v2 as unbounded Python
integers (no mod-256 wraparound); after LDI r1,v1; LDI r2,v2; ADD r1,r2
register r1 holds v1 + v2, and a register holding 200 multiplied by a
register holding 2 yields 400. -/
theorem c1_amended :
    (∀ r1 r2 v1 v2 : Int, 0 ≤ v1 → v1 ≤ 255 → 0 ≤ v2 → v2 ≤ 255 →
      0 ≤ r1 → r1 < 8 → 0 ≤ r2 → r2 < 8 → r1 ≠ r2 →
      ∃ sf, execN 3 (c1State 160 r1 r2 v1 v2) = .ok sf ∧
        pyGet sf.reg r1 = some (v1 + v2)) ∧
    (∀ r1 r2 v1 v2 : Int, 0 ≤ v1 → v1 ≤ 255 → 0 ≤ v2 → v2 ≤ 255 →
      0 ≤ r1 → r1 < 8 → 0 ≤ r2 → r2 < 8 → r1 ≠ r2 →
      ∃ sf, execN 3 (c1State 162 r1 r2 v1 v2) = .ok sf ∧
        pyGet sf.reg r1 = some (v1 * v2)) ∧
    (∃ sf, execN 3 (c1State 162 0 1 200 2) = .ok sf ∧
      pyGet sf.reg 0 = some 400) := by
  refine ⟨?_, ?_, ⟨(execN 3 (c1State 162 0 1 200 2)).state, by decide, by decide⟩⟩
  · intro r1 r2 v1 v2 hv10 hv1h hv20 hv2h hr10 hr18 hr20 hr28 hne
    refine ⟨{ c1S2 160 r1 r2 v1 v2 with
      reg := (c1S2 160 r1 r2 v1 v2).reg.set r1.toNat (v1 + v2),
      pc := (c1S2 160 r1 r2 v1 v2).pc + 3 }, ?_, ?_⟩
    · show execN (2 + 1) (c1State 160 r1 r2 v1 v2) = _
      rw [execN_succ_ok (c1_step1 160 r1 r2 v1 v2 hr10 hr18)]
      show execN (1 + 1) (c1S1 160 r1 r2 v1 v2) = _
      rw [execN_succ_ok (c1_step2 160 r1 r2 v1 v2 hr20 hr28)]
      show execN (0 + 1) (c1S2 160 r1 r2 v1 v2) = _
      rw [execN_succ_ok (c1_step3_add r1 r2 v1 v2 hr10 hr18 hr20 hr28 hne)]
      rfl
    · show pyGet ((c1S2 160 r1 r2 v1 v2).reg.set r1.toNat (v1 + v2)) r1
        = some (v1 + v2)
      exact pyGet_set_self _ r1 _ hr10 (by rw [c1S2_reg_len]; exact_mod_cast hr18)
  · intro r1 r2 v1 v2 hv10 hv1h hv20 hv2h hr10 hr18 hr20 hr28 hne
    refine ⟨{ c1S2 162 r1 r2 v1 v2 with
      reg := (c1S2 162 r1 r2 v1 v2).reg.set r1.toNat (v1 * v2),
      pc := (c1S2 162 r1 r2 v1 v2).pc + 3 }, ?_, ?_⟩
    · show execN (2 + 1) (c1State 162 r1 r2 v1 v2) = _
      rw [execN_succ_ok (c1_step1 162 r1 r2 v1 v2 hr10 hr18)]
      show execN (1 + 1) (c1S1 162 r1 r2 v1 v2) = _
      rw [execN_succ_ok (c1_step2 162 r1 r2 v1 v2 hr20 hr28)]
      show execN (0 + 1) (c1S2 162 r1 r2 v1 v2) = _
      rw [execN_succ_ok (c1_step3_mult r1 r2 v1 v2 hr10 hr18 hr20 hr28 hne)]
      rfl
    · show pyGet ((c1S2 162 r1 r2 v1 v2).reg.set r1.toNat (v1 * v2)) r1
        = some (v1 * v2)
      exact pyGet_set_self _ r1 _ hr10 (by rw [c1S2_reg_len]; exact_mod_cast hr18)

/-- Witness for C1 amended at concrete inputs: ADD of 200 and 100 in
registers 3 and 5 leaves 300, and MULT of 200 by 2 leaves 400. -/
theorem c1_witness :
    (∃ sf, execN 3 (c1State 160 3 5 200 100) = .ok sf ∧
      pyGet sf.reg 3 = some (200 + 100)) ∧
    (∃ sf, execN 3 (c1State 162 0 1 200 2) = .ok sf ∧
      pyGet sf.reg 0 = some (200 * 2)) := by
  constructor
  · exact c1_amended.1 3 5 200 100 (by norm_num) (by norm_num) (by norm_num)
      (by norm_num) (by norm_num) (by norm_num) (by norm_num) (by norm_num)
      (by norm_num)
  · exact c1_amended.2.1 0 1 200 2 (by norm_num) (by norm_num) (by norm_num)
      (by norm_num) (by norm_num) (by norm_num) (by norm_num) (by norm_num)
      (by norm_num)

/-- C9 amended: blank lines and lines whose first whitespace-delimited
token is exactly "#" are skipped entirely; but a line starting with '#'
with no whitespace after it is NOT skipped: its token fails to parse, the
Invalid-number diagnostic is printed, nothing is written, and the load
address still advances, so the line consumes a memory cell left at its
prior value. -/
theorem c9_amended :
    (∀ st line, tokens line = [] → loadLine st line = .ok st) ∧
    (∀ st line rest, tokens line = ['#'] :: rest → loadLine st line = .ok st) ∧
    (∀ st line t rest, tokens line = t :: rest → t ≠ ['#'] → parseBin t = none →
      loadLine st line = .ok { st with
        output := st.output ++ ["Invalid number: " ++ String.mk t],
        address := st.address + 1 }) := by
  refine ⟨?_, ?_, ?_⟩
  · intro st line h
    simp [loadLine, h]
  · intro st line rest h
    simp [loadLine, h]
  · intro st line t rest h hne hp
    simp [loadLine, h, hne, hp]

/-- C9 counterexample: the line "#c" begins with the character '#', yet
the loader does not skip it: it reports it as an invalid number and
advances the load address from 0 to 1, consuming a memory cell. -/
theorem c9_counterexample :
    loadLine c9Init ['#', 'c'] = .ok { c9Init with
      output := c9Init.output ++ ["Invalid number: #c"],
      address := c9Init.address + 1 } ∧
    c9Init.address + 1 ≠ c9Init.address := by
  exact ⟨by decide, by decide⟩

/-- Witness for C9 amended: a blank line and a "# note" line are skipped
unchanged, and the "#c" line advances the address. -/
theorem c9_witness :
    (loadLine c9Init [] = .ok c9Init) ∧
    (loadLine c9Init ['#', ' ', 'n'] = .ok c9Init) ∧
    (loadLine c9Init ['#', 'c'] = .ok { c9Init with
      output := c9Init.output ++ ["Invalid number: #c"],
      address := c9Init.address + 1 }) :=
  ⟨c9_amended.1 c9Init [] (by decide),
   c9_amended.2.1 c9Init ['#', ' ', 'n'] [['n']] (by decide),
   c9_amended.2.2 c9Init ['#', 'c'] ['#', 'c'] [] (by decide) (by decide) (by decide)⟩

theorem loadAll_overflow (lines : List (List Char)) (st : LoadState)
    (hval : ∀ l ∈ lines, validLine l)
    (hram : st.ram.length = 256)
    (h0 : 0 ≤ st.address) (hle : st.address ≤ 256)
    (hover : 256 < st.address + lines.length) :
    ∃ st1, loadAll st lines = .err "IndexError" st1 ∧ st1.ram.length = 256 := by
  induction lines generalizing st with
  | nil =>
    simp at hover
    omega
  | cons l ls ih =>
    obtain ⟨t, rest, v, htok, hneq, hp⟩ := hval l (by simp)
    by_cases hlt : st.address < 256
    · have hidx : pyIdx st.ram.length st.address = some st.address.toNat := by
        rw [hram]
        exact pyIdx_eq_some_of_nonneg h0 (by exact_mod_cast hlt)
      have hset : pySet st.ram st.address v = some (st.ram.set st.address.toNat v) :=
        pySet_of_pyIdx v hidx
      have hstep : loadLine st l = .ok { st with
          ram := st.ram.set st.address.toNat v, address := st.address + 1 } := by
        simp [loadLine, htok, hneq, hp, hset]
      simp only [loadAll, hstep]
      refine ih _ (fun x hx => hval x (by simp [hx])) (by simp [hram]) ?_ ?_ ?_
      · show (0 : Int) ≤ st.address + 1
        omega
      · show st.address + 1 ≤ 256
        omega
      · show (256 : Int) < st.address + 1 + ls.length
        simp only [List.length_cons] at hover
        push_cast at hover ⊢
        omega
    · have hidx : pyIdx st.ram.length st.address = none := by
        have haddr : st.address = 256 := by omega
        rw [hram, haddr]
        decide
      have hset : pySet st.ram st.address v = none := by
        simp [pySet, hidx]
      have hstep : loadLine st l = .err "IndexError" st := by
        simp [loadLine, htok, hneq, hp, hset]
      simp only [loadAll, hstep]
      exact ⟨st, rfl, hram⟩

/-- C8 amended: a program of more than 256 valid instruction lines makes
load fail with an uncaught IndexError on the write past the end of the
256-cell memory (there is no named ProgramTooLarge check in the code);
memory keeps exactly its 256 cells, so no cell beyond address 255 is ever
written. -/
theorem c8_amended (lines : List (List Char))
    (hval : ∀ l ∈ lines, validLine l)
    (hover : 256 < lines.length) :
    ∃ st1, load lines = .err "IndexError" st1 ∧ st1.ram.length = 256 := by
  refine loadAll_overflow lines _ hval (by simp [c9Init]) (by norm_num)
    (by norm_num) ?_
  push_cast
  omega

/-- C8 counterexample: 257 valid one-byte lines end in an IndexError (not
a ProgramTooLarge error) after the first 256 values are written; the final
memory is still exactly 256 cells, every one holding the loaded value 1. -/
theorem c8_counterexample :
    load c8Lines = .err "IndexError"
      { ram := List.replicate 256 1, address := 256, output := [] } := by
  decide

/-- Witness for C8 amended at the concrete 257-line program. -/
theorem c8_witness :
    ∃ st1, load c8Lines = .err "IndexError" st1 ∧ st1.ram.length = 256 :=
  c8_amended c8Lines
    (fun l hl => by
      have h : l = ['1'] := List.eq_of_mem_replicate hl
      subst h
      exact ⟨['1'], [], 1, by decide, by decide, by decide⟩)
    (by decide)

end LS8
